import Mathlib

/-!
Verification of the Django health watcher
(`stacks/django/health-scripts/health_watcher.py`).

The program is a single unbounded loop: for each configured `(name, url)`
pair it issues an HTTP GET (timeout 10 s), classifies the outcome, logs a
line, then logs an aggregate summary and sleeps for a configured interval.

Shallow embedding: the observable behaviour of a run is a list of events
(HTTP GET attempts, log lines, sleeps).  The network is an environment
mapping each request to its outcome: a completed response with a status
code, or a raised transport fault with an exception message.  `try/except`
is modelled with `Except`: the body of the `try:` block may return
`.error`, the enclosing handler catches it and returns normally.
-/

namespace HealthWatcher

/-- Logging severity levels used by the script (INFO / WARNING / ERROR). -/
inductive Level
  | info
  | warning
  | error
deriving DecidableEq, Repr

/-- One emitted log line: a severity and the formatted message. -/
structure LogLine where
  level : Level
  msg : String
deriving DecidableEq, Repr

/-- Outcome of one HTTP GET as seen by the caller of `requests.get`:
either the request completes with a status code, or it raises a
transport-level exception carrying a message. -/
inductive HttpOutcome
  | response (status : Nat)
  | fault (message : String)
deriving DecidableEq, Repr

/-- Observable events of a run: an HTTP GET attempt against a URL with its
timeout in seconds, a log line, or a sleep for a number of seconds. -/
inductive Event
  | httpGet (url : String) (timeoutSecs : Nat)
  | log (line : LogLine)
  | sleep (seconds : Int)
deriving DecidableEq, Repr

/-- `requests.get(url, timeout=10)` under network environment `outcome`:
returns the response status, or raises (models the raised exception as
`Except.error` with the exception's string form). -/
def requests_get (outcome : HttpOutcome) : Except String Nat :=
  match outcome with
  | .response s => .ok s
  | .fault m => .error m

/-- The body of the `try:` block of `check_health`: issue the GET, then
branch on `response.status_code == 200`.  A fault raised by `requests.get`
propagates out of the block as `.error`.  Returns the boolean result
together with the log lines emitted inside the block. -/
def check_health_try (app_name : String) (outcome : HttpOutcome) :
    Except String (Bool × List LogLine) :=
  match requests_get outcome with
  | .error e => .error e
  | .ok status =>
    if status = 200 then
      .ok (true, [⟨.info, app_name ++ ": HEALTHY"⟩])
    else
      .ok (false, [⟨.warning, app_name ++ ": UNHEALTHY (HTTP " ++ toString status ++ ")"⟩])

/-- `check_health(app_name, url)`: the `try:` body wrapped in
`except Exception as e`, which catches every raised fault, logs
`"{app_name}: ERROR - {e}"` at error level and returns `False`.
The function is total — no exception escapes it.  It returns the boolean
and the events it produced (the GET attempt followed by its log lines). -/
def check_health (app_name : String) (url : String) (outcome : HttpOutcome) :
    Bool × List Event :=
  match check_health_try app_name outcome with
  | .ok (b, logs) => (b, Event.httpGet url 10 :: logs.map Event.log)
  | .error e =>
      (false, [Event.httpGet url 10,
               Event.log ⟨.error, app_name ++ ": ERROR - " ++ toString e⟩])

/-- The hard-coded target list of `main`. -/
def apps : List (String × String) :=
  [("Jopi", "http://jopi_app:8000/health/"),
   ("Synergas", "http://synergas_app:8000/health/")]

/-- The `for app_name, url in apps:` loop of `main`: starting from
`healthy_count = 0`, call `check_health` on each target in order,
incrementing the count when it returns `True`, accumulating the emitted
events.  An iteration's network environment `resp` assigns an outcome to
each target. -/
def probe_fold (resp : String × String → HttpOutcome)
    (targets : List (String × String)) : Nat × List Event :=
  targets.foldl
    (fun acc t =>
      let r := check_health t.1 t.2 (resp t)
      (acc.1 + (if r.1 then 1 else 0), acc.2 ++ r.2))
    (0, [])

/-- The aggregate log line of one iteration: info `"All Django apps are
healthy"` when the tally equals the target count, else the warning with
the `healthy_count/total` counts. -/
def aggregate_line (healthy_count total : Nat) : LogLine :=
  if healthy_count = total then
    ⟨.info, "All Django apps are healthy"⟩
  else
    ⟨.warning, "Some Django apps are unhealthy! (" ++ toString healthy_count ++ "/"
        ++ toString total ++ " healthy)"⟩

/-- Events of the body of one `while True:` iteration, up to but not
including the sleep: the per-target probes in declaration order, then the
aggregate log comparing the tally against `len(apps)`. -/
def iteration_events (targets : List (String × String))
    (resp : String × String → HttpOutcome) : List Event :=
  let r := probe_fold resp targets
  r.2 ++ [Event.log (aggregate_line r.1 targets.length)]

/-- CPython `time.sleep(secs)`: suspends for `secs` seconds when `secs` is
nonnegative; for a negative argument the call raises
`ValueError: sleep length must be non-negative`, which `main` does not
catch. -/
def time_sleep (secs : Int) : Except String Unit :=
  if secs < 0 then .error "sleep length must be non-negative" else .ok ()

/-! ### Python `int()` parsing of the interval

`check_interval = int(os.getenv('HEALTH_CHECK_INTERVAL', '60'))`.
Python `int(str)` accepts optional surrounding whitespace, an optional
sign, and decimal digits optionally separated by single underscores; any
other string raises `ValueError`, modelled as `none`.

This model is exact for strings of ASCII characters.  CPython additionally
accepts non-ASCII decimal digits (Unicode category Nd) and strips Unicode
whitespace beyond ASCII; this model maps such strings to `none`, so a
`some` result is always sound (CPython parses the same value), while a
`none` result means a CPython `ValueError` only when the string is ASCII.
Parse-failure statements below therefore carry an `asciiOnly` hypothesis. -/

/-- Whitespace stripped by Python `int()` around the literal, restricted to
the ASCII range: TAB, LF, VT, FF, CR, FS, GS, RS, US, and space (CPython
strips every code point satisfying `Py_UNICODE_ISSPACE`; within ASCII that
is exactly this set). -/
def pyIsSpace (c : Char) : Bool :=
  c = ' ' || c = '\t' || c = '\n' || c = '\r' || c = Char.ofNat 11 || c = Char.ofNat 12
    || c = Char.ofNat 28 || c = Char.ofNat 29 || c = Char.ofNat 30 || c = Char.ofNat 31

/-- Strip leading and trailing whitespace from a character list. -/
def pyStrip (l : List Char) : List Char :=
  ((l.dropWhile pyIsSpace).reverse.dropWhile pyIsSpace).reverse

/-- Decimal digit test. -/
def isPyDigit (c : Char) : Bool :=
  '0' ≤ c && c ≤ '9'

/-- Tail of a Python decimal digit string, after at least one digit has
been read: digits, with each underscore followed by a digit. -/
def pyDigitsTail : List Char → Bool
  | [] => true
  | '_' :: rest =>
    match rest with
    | [] => false
    | c :: rest2 => isPyDigit c && pyDigitsTail rest2
  | c :: rest => isPyDigit c && pyDigitsTail rest

/-- A valid unsigned Python decimal literal body: at least one digit,
underscores only between digits. -/
def pyDigitsValid : List Char → Bool
  | [] => false
  | c :: rest => isPyDigit c && pyDigitsTail rest

/-- Numeric value of a digit string, ignoring underscores. -/
def pyDigitsValue (l : List Char) : Nat :=
  (l.filter (fun c => c != '_')).foldl
    (fun acc c => acc * 10 + (c.toNat - '0'.toNat)) 0

/-- Python `int(s)`: `some` of the parsed integer, or `none` for the
`ValueError` raised on a malformed literal.  Exact on ASCII strings;
conservative (`some` sound, `none` not authoritative) beyond ASCII. -/
def python_int (s : String) : Option Int :=
  match pyStrip s.data with
  | '+' :: rest => if pyDigitsValid rest then some (pyDigitsValue rest) else none
  | '-' :: rest => if pyDigitsValid rest then some (-(pyDigitsValue rest : Int)) else none
  | rest => if pyDigitsValid rest then some (pyDigitsValue rest) else none

/-- Every character of the string is ASCII: the range on which
`python_int` agrees with CPython `int()` exactly. -/
def asciiOnly (s : String) : Bool :=
  s.data.all (fun c => c.toNat ≤ 127)

/-- The environment value, when set, is an ASCII string. -/
def asciiEnv : Option String → Bool
  | none => true
  | some s => asciiOnly s

/-- `int(os.getenv('HEALTH_CHECK_INTERVAL', '60'))`: the environment value
when set, the string `"60"` otherwise, passed to `int()`.  `none` models
the `ValueError` raised during startup. -/
def check_interval_of (env : Option String) : Option Int :=
  python_int (env.getD "60")

/-- The startup log line emitted at the top of `main`. -/
def startup_log : Event :=
  Event.log ⟨.info, "Starting Django health watcher..."⟩

/-- Events of iterations `i, i+1, ...` of the `while True:` loop, truncated
to `fuel` iterations, paired with `true` when the `time.sleep` call raised
an uncaught `ValueError` (negative interval), which terminates the run
after the first iteration's probes, aggregate log and failing sleep call.
`Event.sleep` records the call to `time.sleep` with its argument; when the
call raises, no further events follow. -/
def loop_events (interval : Int) (resp : Nat → String × String → HttpOutcome) :
    Nat → Nat → List Event × Bool
  | _, 0 => ([], false)
  | i, fuel + 1 =>
      match time_sleep interval with
      | .error _ => (iteration_events apps (resp i) ++ [Event.sleep interval], true)
      | .ok _ =>
          (iteration_events apps (resp i) ++ Event.sleep interval ::
              (loop_events interval resp (i + 1) fuel).1,
           (loop_events interval resp (i + 1) fuel).2)

/-- Events of `main` truncated to the first `fuel` iterations of the
unbounded loop, paired with `true` when an unhandled exception terminated
the program: the `int()` `ValueError` at startup, or the `time.sleep`
`ValueError` on a negative parsed interval.  `resp i` is the network
environment iteration `i` runs against. -/
def main_events (env : Option String)
    (resp : Nat → String × String → HttpOutcome) (fuel : Nat) :
    List Event × Bool :=
  match check_interval_of env with
  | none => ([startup_log], true)
  | some interval =>
      (startup_log :: (loop_events interval resp 0 fuel).1,
       (loop_events interval resp 0 fuel).2)

/-! ### The loop as a state machine

`while True:` alternates between probing all targets and sleeping; the
state records which of the two the loop is about to do and how many full
iterations have begun.  A sleeping step with a negative interval moves to
the absorbing `crashed` state: the uncaught `ValueError` from `time.sleep`
has killed the process. -/

/-- Phase of the loop: about to probe all targets, about to sleep, or dead
of an uncaught exception raised by `time.sleep`. -/
inductive Phase
  | probing
  | sleeping
  | crashed
deriving DecidableEq, Repr

/-- State of the unbounded loop. -/
structure LoopState where
  iteration : Nat
  phase : Phase
deriving DecidableEq, Repr

/-- One step of the loop: probing runs the iteration body (per-target
probes and aggregate log) and moves to sleeping; sleeping makes the
`time.sleep` call — on a nonnegative interval it starts the next
iteration, on a negative one the call raises an uncaught `ValueError` and
the process is dead; `crashed` is absorbing and emits nothing. -/
def loop_step (interval : Int) (resp : Nat → String × String → HttpOutcome) :
    LoopState → LoopState × List Event
  | ⟨i, .probing⟩ => (⟨i, .sleeping⟩, iteration_events apps (resp i))
  | ⟨i, .sleeping⟩ =>
      match time_sleep interval with
      | .ok _ => (⟨i + 1, .probing⟩, [Event.sleep interval])
      | .error _ => (⟨i, .crashed⟩, [Event.sleep interval])
  | ⟨i, .crashed⟩ => (⟨i, .crashed⟩, [])

/-- The state after `n` steps from the initial state `⟨0, probing⟩`. -/
def loop_run (interval : Int) (resp : Nat → String × String → HttpOutcome) :
    Nat → LoopState
  | 0 => ⟨0, .probing⟩
  | n + 1 => (loop_step interval resp (loop_run interval resp n)).1

/-! ### Derived views of the model -/

/-- The boolean `check_health` returns for a target under environment `resp`. -/
def target_healthy (resp : String × String → HttpOutcome) (t : String × String) : Bool :=
  (check_health t.1 t.2 (resp t)).1

/-- The events a single `check_health` call emits for a target. -/
def target_events (resp : String × String → HttpOutcome) (t : String × String) : List Event :=
  (check_health t.1 t.2 (resp t)).2

/-- Is this event an HTTP GET attempt? -/
def isGetEvent : Event → Bool
  | .httpGet _ _ => true
  | _ => false

/-- Is this event a log line? -/
def isLogEvent : Event → Bool
  | .log _ => true
  | _ => false

/-- Is this event a sleep? -/
def isSleepEvent : Event → Bool
  | .sleep _ => true
  | _ => false

/-- `needle` occurs as a contiguous substring of `hay`. -/
def substringOf (needle hay : String) : Prop :=
  ∃ p q, hay.data = p ++ needle.data ++ q

/-! ### Helper lemmas -/

lemma substringOf_append_right (a b : String) : substringOf a (a ++ b) :=
  ⟨[], b.data, by simp [String.data_append]⟩

lemma substringOf_append_left (a b : String) : substringOf b (a ++ b) :=
  ⟨a.data, [], by simp [String.data_append]⟩

lemma substringOf_middle (a b c : String) : substringOf b (a ++ b ++ c) :=
  ⟨a.data, c.data, by simp [String.data_append]⟩

lemma check_health_200 (name url : String) :
    check_health name url (.response 200) =
      (true, [Event.httpGet url 10, Event.log ⟨.info, name ++ ": HEALTHY"⟩]) := rfl

lemma check_health_non200 (name url : String) (s : Nat) (h : s ≠ 200) :
    check_health name url (.response s) =
      (false, [Event.httpGet url 10,
               Event.log ⟨.warning, name ++ ": UNHEALTHY (HTTP " ++ toString s ++ ")"⟩]) := by
  simp [check_health, check_health_try, requests_get, h]

lemma check_health_fault (name url m : String) :
    check_health name url (.fault m) =
      (false, [Event.httpGet url 10,
               Event.log ⟨.error, name ++ ": ERROR - " ++ m⟩]) := rfl

lemma check_health_true_iff (name url : String) (o : HttpOutcome) :
    (check_health name url o).1 = true ↔ o = .response 200 := by
  cases o with
  | response s =>
      by_cases h : s = 200 <;>
        simp [check_health, check_health_try, requests_get, h]
  | fault m => simp [check_health, check_health_try, requests_get]

lemma check_health_gets (name url : String) (o : HttpOutcome) :
    (check_health name url o).2.filter isGetEvent = [Event.httpGet url 10] := by
  cases o with
  | response s =>
      by_cases h : s = 200 <;>
        simp [check_health, check_health_try, requests_get, h, isGetEvent, List.filter_cons]
  | fault m =>
      simp [check_health, check_health_try, requests_get, isGetEvent, List.filter_cons]

lemma check_health_no_sleep (name url : String) (o : HttpOutcome) :
    (check_health name url o).2.filter isSleepEvent = [] := by
  cases o with
  | response s =>
      by_cases h : s = 200 <;>
        simp [check_health, check_health_try, requests_get, h, isSleepEvent, List.filter_cons]
  | fault m =>
      simp [check_health, check_health_try, requests_get, isSleepEvent, List.filter_cons]

lemma probe_fold_go (resp : String × String → HttpOutcome) :
    ∀ (targets : List (String × String)) (acc : Nat × List Event),
      targets.foldl
        (fun acc t =>
          let r := check_health t.1 t.2 (resp t)
          (acc.1 + (if r.1 then 1 else 0), acc.2 ++ r.2)) acc =
      (acc.1 + targets.countP (target_healthy resp),
       acc.2 ++ (targets.map (target_events resp)).flatten)
  | [], acc => by simp
  | t :: rest, acc => by
      rw [List.foldl_cons, probe_fold_go resp rest]
      simp only [List.countP_cons, List.map_cons, List.flatten_cons, target_healthy,
        target_events]
      refine Prod.ext ?_ ?_
      · simp only
        split <;> omega
      · simp

lemma probe_fold_eq (resp : String × String → HttpOutcome)
    (targets : List (String × String)) :
    probe_fold resp targets =
      (targets.countP (target_healthy resp),
       (targets.map (target_events resp)).flatten) := by
  unfold probe_fold
  rw [probe_fold_go]
  simp

lemma iteration_events_eq (targets : List (String × String))
    (resp : String × String → HttpOutcome) :
    iteration_events targets resp =
      (targets.map (target_events resp)).flatten ++
        [Event.log (aggregate_line (targets.countP (target_healthy resp)) targets.length)] := by
  unfold iteration_events
  rw [probe_fold_eq]

lemma flatten_gets (resp : String × String → HttpOutcome) :
    ∀ targets : List (String × String),
      ((targets.map (target_events resp)).flatten).filter isGetEvent =
        targets.map (fun t => Event.httpGet t.2 10)
  | [] => by simp
  | t :: rest => by
      simp only [List.map_cons, List.flatten_cons, List.filter_append]
      rw [flatten_gets resp rest]
      simp [target_events, check_health_gets]

lemma flatten_no_sleep (resp : String × String → HttpOutcome) :
    ∀ targets : List (String × String),
      ((targets.map (target_events resp)).flatten).filter isSleepEvent = []
  | [] => by simp
  | t :: rest => by
      simp only [List.map_cons, List.flatten_cons, List.filter_append]
      rw [flatten_no_sleep resp rest]
      simp [target_events, check_health_no_sleep]

lemma iteration_events_gets (targets : List (String × String))
    (resp : String × String → HttpOutcome) :
    (iteration_events targets resp).filter isGetEvent =
      targets.map (fun t => Event.httpGet t.2 10) := by
  rw [iteration_events_eq, List.filter_append, flatten_gets]
  simp [isGetEvent, List.filter_cons]

lemma iteration_events_no_sleep (targets : List (String × String))
    (resp : String × String → HttpOutcome) :
    (iteration_events targets resp).filter isSleepEvent = [] := by
  rw [iteration_events_eq, List.filter_append, flatten_no_sleep]
  simp [isSleepEvent, List.filter_cons]

lemma not_sleep_mem_iteration (targets : List (String × String))
    (resp : String × String → HttpOutcome) (s : Int) :
    Event.sleep s ∉ iteration_events targets resp := by
  intro h
  have hf : Event.sleep s ∈ (iteration_events targets resp).filter isSleepEvent :=
    List.mem_filter.mpr ⟨h, rfl⟩
  rw [iteration_events_no_sleep] at hf
  exact List.not_mem_nil _ hf

lemma time_sleep_nonneg {interval : Int} (h : 0 ≤ interval) :
    time_sleep interval = .ok () := by
  simp [time_sleep, not_lt.mpr h]

lemma time_sleep_neg {interval : Int} (h : interval < 0) :
    time_sleep interval = .error "sleep length must be non-negative" := by
  simp [time_sleep, h]

lemma aggregate_info_iff (H N : Nat) :
    aggregate_line H N = ⟨Level.info, "All Django apps are healthy"⟩ ↔ H = N := by
  unfold aggregate_line
  split <;> simp_all

lemma aggregate_warning (H N : Nat) (h : H ≠ N) :
    aggregate_line H N =
      ⟨Level.warning, "Some Django apps are unhealthy! (" ++ toString H ++ "/"
          ++ toString N ++ " healthy)"⟩ := by
  unfold aggregate_line
  simp [h]

lemma loop_events_sleeps (interval : Int)
    (resp : Nat → String × String → HttpOutcome) (h : 0 ≤ interval) :
    ∀ (fuel i : Nat),
      (loop_events interval resp i fuel).1.filter isSleepEvent =
        List.replicate fuel (Event.sleep interval)
  | 0, i => by simp [loop_events]
  | fuel + 1, i => by
      simp only [loop_events, time_sleep_nonneg h]
      rw [List.filter_append, iteration_events_no_sleep, List.filter_cons]
      simp [isSleepEvent, loop_events_sleeps interval resp h fuel (i + 1),
        List.replicate_succ]

lemma loop_events_sleep_mem (interval : Int)
    (resp : Nat → String × String → HttpOutcome) :
    ∀ (fuel i : Nat) (s : Int),
      Event.sleep s ∈ (loop_events interval resp i fuel).1 → s = interval
  | 0, i, s => by simp [loop_events]
  | fuel + 1, i, s => by
      by_cases hn : interval < 0
      · simp only [loop_events, time_sleep_neg hn]
        intro hmem
        rcases List.mem_append.mp hmem with hb | hs
        · exact absurd hb (not_sleep_mem_iteration apps (resp i) s)
        · simpa using List.mem_singleton.mp hs
      · simp only [loop_events, time_sleep_nonneg (not_lt.mp hn)]
        intro hmem
        rcases List.mem_append.mp hmem with hb | hrest
        · exact absurd hb (not_sleep_mem_iteration apps (resp i) s)
        · rcases List.mem_cons.mp hrest with he | hr
          · simpa using he
          · exact loop_events_sleep_mem interval resp fuel (i + 1) s hr

lemma loop_events_raised (interval : Int)
    (resp : Nat → String × String → HttpOutcome) :
    ∀ (fuel i : Nat), (loop_events interval resp i fuel).2 = true → interval < 0
  | 0, i => by simp [loop_events]
  | fuel + 1, i => by
      by_cases hn : interval < 0
      · intro _
        exact hn
      · simp only [loop_events, time_sleep_nonneg (not_lt.mp hn)]
        exact loop_events_raised interval resp fuel (i + 1)

lemma loop_events_not_raised (interval : Int)
    (resp : Nat → String × String → HttpOutcome) (h : 0 ≤ interval) :
    ∀ (fuel i : Nat), (loop_events interval resp i fuel).2 = false
  | 0, i => by simp [loop_events]
  | fuel + 1, i => by
      simp only [loop_events, time_sleep_nonneg h]
      exact loop_events_not_raised interval resp h fuel (i + 1)

lemma main_events_parse_failure (s : String)
    (resp : Nat → String × String → HttpOutcome) (fuel : Nat)
    (h : python_int s = none) :
    main_events (some s) resp fuel = ([startup_log], true) := by
  unfold main_events check_interval_of
  simp [h]

lemma loop_run_even_nonneg (interval : Int)
    (resp : Nat → String × String → HttpOutcome) (h : 0 ≤ interval) :
    ∀ n : Nat, loop_run interval resp (2 * n) = ⟨n, .probing⟩
  | 0 => rfl
  | n + 1 => by
      have h2 : 2 * (n + 1) = 2 * n + 1 + 1 := by ring
      rw [h2]
      simp [loop_run, loop_run_even_nonneg interval resp h n, loop_step,
        time_sleep_nonneg h]

lemma iteration_events_congr (targets : List (String × String))
    (r r' : String × String → HttpOutcome) (h : ∀ t ∈ targets, r t = r' t) :
    iteration_events targets r = iteration_events targets r' := by
  rw [iteration_events_eq, iteration_events_eq]
  have hc : targets.countP (target_healthy r) = targets.countP (target_healthy r') :=
    List.countP_congr (fun t ht => by simp [target_healthy, h t ht])
  have hm : targets.map (target_events r) = targets.map (target_events r') :=
    List.map_congr_left (fun t ht => by simp [target_events, h t ht])
  rw [hc, hm]

lemma probe_tally_congr (targets : List (String × String))
    (r r' : String × String → HttpOutcome)
    (h : ∀ t ∈ targets, (r t = .response 200 ↔ r' t = .response 200)) :
    (probe_fold r targets).1 = (probe_fold r' targets).1 := by
  rw [probe_fold_eq, probe_fold_eq]
  exact List.countP_congr (fun t ht => by
    simp only [target_healthy]
    rw [check_health_true_iff, check_health_true_iff]
    exact h t ht)

/-! ### Concrete environments used by witnesses -/

/-- Scenario environment: Jopi answers 200, every other target answers 503. -/
def resp_scenario : String × String → HttpOutcome :=
  fun t => if t.1 = "Jopi" then .response 200 else .response 503

/-- Environment where every target answers 200 in every iteration. -/
def resp_all_ok : Nat → String × String → HttpOutcome :=
  fun _ _ => .response 200

/-- Environment where every request raises a timeout fault. -/
def resp_fault : String × String → HttpOutcome :=
  fun _ => .fault "timed out"

/-! ### Claims -/

/-- C1: for every target whose request raises a transport-level fault, the
fault propagates out of the `try:` body, `check_health` catches it, returns
`False`, and logs at error level a message containing the target name and
the error description; no exception escapes `check_health` (it returns
normally), and the probe loop continues with the remaining targets, the
faulting target contributing nothing to the tally. -/
theorem transport_fault_absorbed (name url m : String) :
    check_health_try name (.fault m) = .error m ∧
    check_health name url (.fault m) =
      (false, [Event.httpGet url 10,
               Event.log ⟨.error, name ++ ": ERROR - " ++ m⟩]) ∧
    substringOf name (name ++ ": ERROR - " ++ m) ∧
    substringOf m (name ++ ": ERROR - " ++ m) ∧
    (∀ (resp : String × String → HttpOutcome) (t : String × String)
        (rest : List (String × String)), resp t = .fault m →
      probe_fold resp (t :: rest) =
        ((probe_fold resp rest).1,
         (check_health t.1 t.2 (resp t)).2 ++ (probe_fold resp rest).2)) := by
  refine ⟨rfl, check_health_fault name url m, ⟨[], (": ERROR - " ++ m).data, ?_⟩,
    substringOf_append_left _ _, ?_⟩
  · simp [String.data_append]
  · intro resp t rest h
    rw [probe_fold_eq, probe_fold_eq]
    simp [List.countP_cons, target_healthy, target_events, h, check_health_fault]

/-- C1 witness: concrete instance with a timeout fault, hypotheses discharged
at the first hard-coded target. -/
theorem transport_fault_absorbed_witness :
    resp_fault ("Jopi", "http://jopi_app:8000/health/") = .fault "timed out" ∧
    probe_fold resp_fault apps =
      ((probe_fold resp_fault apps.tail).1,
       (check_health "Jopi" "http://jopi_app:8000/health/"
          (resp_fault ("Jopi", "http://jopi_app:8000/health/"))).2 ++
         (probe_fold resp_fault apps.tail).2) :=
  ⟨rfl, (transport_fault_absorbed "Jopi" "http://jopi_app:8000/health/" "timed out").2.2.2.2
    resp_fault ("Jopi", "http://jopi_app:8000/health/") apps.tail rfl⟩

/-- C2: with H the number of targets classified healthy out of N, the
iteration's final log line is the aggregate; it is the info message
`"All Django apps are healthy"` iff H = N, and otherwise the warning
message carrying exactly the counts `H/N`. -/
theorem aggregate_log_correct (targets : List (String × String))
    (resp : String × String → HttpOutcome) :
    (iteration_events targets resp).getLast? =
      some (Event.log (aggregate_line (targets.countP (target_healthy resp))
        targets.length)) ∧
    (aggregate_line (targets.countP (target_healthy resp)) targets.length =
        ⟨Level.info, "All Django apps are healthy"⟩ ↔
      targets.countP (target_healthy resp) = targets.length) ∧
    (targets.countP (target_healthy resp) ≠ targets.length →
      aggregate_line (targets.countP (target_healthy resp)) targets.length =
        ⟨Level.warning, "Some Django apps are unhealthy! ("
            ++ toString (targets.countP (target_healthy resp)) ++ "/"
            ++ toString targets.length ++ " healthy)"⟩) := by
  refine ⟨?_, aggregate_info_iff _ _, aggregate_warning _ _⟩
  rw [iteration_events_eq]
  exact List.getLast?_concat _

/-- C2 witness: the spec scenario — Jopi returns 200, Synergas returns 503 —
yields the warning line `"Some Django apps are unhealthy! (1/2 healthy)"`. -/
theorem aggregate_log_correct_witness :
    apps.countP (target_healthy resp_scenario) = 1 ∧ apps.length = 2 ∧
    aggregate_line 1 2 =
      ⟨Level.warning, "Some Django apps are unhealthy! (1/2 healthy)"⟩ := by
  have e1 : apps.countP (target_healthy resp_scenario) = 1 := by decide
  have e2 : apps.length = 2 := by decide
  have h := (aggregate_log_correct apps resp_scenario).2.2 (by decide)
  rw [e1, e2] at h
  rw [h]
  exact ⟨e1, e2, by decide⟩

/-- C3: a target answering HTTP 200 makes `check_health` return `True` and
emit exactly one log line, at info level, the line `"{name}: HEALTHY"`,
which contains the target name. -/
theorem healthy_logged_info (name url : String) :
    check_health name url (.response 200) =
      (true, [Event.httpGet url 10, Event.log ⟨.info, name ++ ": HEALTHY"⟩]) ∧
    (check_health name url (.response 200)).2.filter isLogEvent =
      [Event.log ⟨.info, name ++ ": HEALTHY"⟩] ∧
    substringOf name (name ++ ": HEALTHY") :=
  ⟨check_health_200 name url,
   by simp [check_health_200, isLogEvent, List.filter_cons],
   substringOf_append_right _ _⟩

/-- C4: a target answering any non-200 status S makes `check_health` return
`False` and log at warning level the line
`"{name}: UNHEALTHY (HTTP {S})"`, containing the name and S. -/
theorem unhealthy_logged_warning (name url : String) (s : Nat) (h : s ≠ 200) :
    check_health name url (.response s) =
      (false, [Event.httpGet url 10,
               Event.log ⟨.warning, name ++ ": UNHEALTHY (HTTP " ++ toString s ++ ")"⟩]) ∧
    substringOf name (name ++ ": UNHEALTHY (HTTP " ++ toString s ++ ")") ∧
    substringOf (toString s) (name ++ ": UNHEALTHY (HTTP " ++ toString s ++ ")") := by
  refine ⟨check_health_non200 name url s h,
    ⟨[], (": UNHEALTHY (HTTP " ++ toString s ++ ")").data, ?_⟩,
    ⟨(name ++ ": UNHEALTHY (HTTP ").data, ")".data, ?_⟩⟩
  · simp [String.data_append]
  · simp [String.data_append]

/-- C4 witness: the claim applied at status 503. -/
theorem unhealthy_logged_warning_witness :
    (503 : Nat) ≠ 200 ∧
    check_health "Synergas" "http://synergas_app:8000/health/" (.response 503) =
      (false, [Event.httpGet "http://synergas_app:8000/health/" 10,
               Event.log ⟨.warning, "Synergas: UNHEALTHY (HTTP 503)"⟩]) :=
  ⟨by decide,
   by
    have h := (unhealthy_logged_warning "Synergas" "http://synergas_app:8000/health/" 503
      (by decide)).1
    simpa using h⟩

/-- C5 counterexample: `HEALTH_CHECK_INTERVAL=-5` is accepted by `int()`,
both targets are probed, yet the first `time.sleep(-5)` raises an uncaught
`ValueError`: after two steps the loop is dead in the crashed state — it
never reaches iteration 1 — and the run's raised flag is set even though
startup succeeded.  The process terminates from within, not by external
signal. -/
theorem negative_interval_crashes_loop :
    python_int "-5" = some (-5) ∧
    loop_run (-5) resp_all_ok 2 = ⟨0, Phase.crashed⟩ ∧
    loop_run (-5) resp_all_ok 4 = ⟨0, Phase.crashed⟩ ∧
    (main_events (some "-5") resp_all_ok 2).2 = true :=
  ⟨by decide, by decide, by decide, by decide⟩

/-- C5 amended: provided the parsed interval is nonnegative, the loop never
terminates from within: under every assignment of responses — including
arbitrary faults — step 2n of the run is at the start of iteration n, a
probing step always proceeds to the sleeping phase after ending in the
aggregate log, and a sleeping step always proceeds to the next iteration.
With a negative parsed interval the first `time.sleep` raises an uncaught
`ValueError` and the process terminates from within at the end of the
first iteration. -/
theorem loop_never_terminates_nonneg (interval : Int)
    (resp : Nat → String × String → HttpOutcome) (n : Nat) :
    (0 ≤ interval →
      loop_run interval resp (2 * n) = ⟨n, .probing⟩ ∧
      loop_step interval resp ⟨n, .probing⟩ =
        (⟨n, .sleeping⟩, iteration_events apps (resp n)) ∧
      loop_step interval resp ⟨n, .sleeping⟩ =
        (⟨n + 1, .probing⟩, [Event.sleep interval]) ∧
      (iteration_events apps (resp n)).getLast? =
        some (Event.log (aggregate_line (apps.countP (target_healthy (resp n)))
          apps.length))) ∧
    (interval < 0 →
      loop_step interval resp ⟨n, .sleeping⟩ = (⟨n, .crashed⟩, [Event.sleep interval]) ∧
      loop_run interval resp 2 = ⟨0, Phase.crashed⟩) := by
  constructor
  · intro h
    refine ⟨loop_run_even_nonneg interval resp h n, rfl, ?_, ?_⟩
    · simp [loop_step, time_sleep_nonneg h]
    · rw [iteration_events_eq]
      exact List.getLast?_concat _
  · intro h
    have hstep : loop_step interval resp ⟨n, .sleeping⟩ =
        (⟨n, .crashed⟩, [Event.sleep interval]) := by
      simp [loop_step, time_sleep_neg h]
    refine ⟨hstep, ?_⟩
    have e1 : loop_run interval resp 1 = ⟨0, .sleeping⟩ := rfl
    show (loop_step interval resp (loop_run interval resp 1)).1 = _
    rw [e1]
    simp [loop_step, time_sleep_neg h]

/-- C5 witness: at interval 60 and iteration 1 the hypotheses hold and the
loop reaches iteration 1. -/
theorem loop_never_terminates_nonneg_witness :
    (0 : Int) ≤ 60 ∧ loop_run 60 resp_all_ok 2 = ⟨1, Phase.probing⟩ :=
  ⟨by decide, ((loop_never_terminates_nonneg 60 resp_all_ok 1).1 (by decide)).1⟩

/-- C6: within an iteration the targets are probed strictly in declaration
order: the loop's tally is exactly the count of healthy-classified targets
and its event stream is the per-target event blocks concatenated in list
order; the GET attempts of the whole iteration are exactly one per target,
in order, and each `check_health` call issues exactly one GET. -/
theorem targets_probed_in_order_once (targets : List (String × String))
    (resp : String × String → HttpOutcome) :
    probe_fold resp targets =
      (targets.countP (target_healthy resp),
       (targets.map (target_events resp)).flatten) ∧
    (iteration_events targets resp).filter isGetEvent =
      targets.map (fun t => Event.httpGet t.2 10) ∧
    ∀ t ∈ targets, (target_events resp t).filter isGetEvent = [Event.httpGet t.2 10] :=
  ⟨probe_fold_eq resp targets, iteration_events_gets targets resp,
   fun t _ => by simpa [target_events] using check_health_gets t.1 t.2 (resp t)⟩

/-- C6 witness: the first hard-coded target, under the spec scenario,
contributes exactly one GET attempt against its URL. -/
theorem targets_probed_in_order_once_witness :
    ("Jopi", "http://jopi_app:8000/health/") ∈ apps ∧
    (target_events resp_scenario ("Jopi", "http://jopi_app:8000/health/")).filter
        isGetEvent = [Event.httpGet "http://jopi_app:8000/health/" 10] :=
  ⟨by decide,
   (targets_probed_in_order_once apps resp_scenario).2.2 _ (by decide)⟩

/-- C7: the interval is `int(os.getenv('HEALTH_CHECK_INTERVAL', '60'))` —
60 when the variable is unset — parsed once before the loop, and no
operation of the loop ever changes it: every `time.sleep` call of the run,
including a first call that raises on a negative value, passes exactly the
value parsed at startup; and when that value is nonnegative the run makes
exactly one sleep of that value per iteration. -/
theorem interval_read_once_default_60 :
    check_interval_of none = some 60 ∧
    (∀ (env : Option String) (v : Int) (resp : Nat → String × String → HttpOutcome)
        (fuel : Nat) (s : Int), check_interval_of env = some v →
        Event.sleep s ∈ (main_events env resp fuel).1 → s = v) ∧
    (∀ (env : Option String) (v : Int) (resp : Nat → String × String → HttpOutcome)
        (fuel : Nat), check_interval_of env = some v → 0 ≤ v →
        (main_events env resp fuel).1.filter isSleepEvent =
          List.replicate fuel (Event.sleep v)) := by
  refine ⟨by decide, ?_, ?_⟩
  · intro env v resp fuel s hc hmem
    unfold main_events at hmem
    rw [hc] at hmem
    rcases List.mem_cons.mp hmem with he | hr
    · simp [startup_log] at he
    · exact loop_events_sleep_mem v resp fuel 0 s hr
  · intro env v resp fuel hc hv
    unfold main_events
    rw [hc]
    show (startup_log :: (loop_events v resp 0 fuel).1).filter isSleepEvent = _
    rw [List.filter_cons]
    simp [startup_log, isSleepEvent, loop_events_sleeps v resp hv fuel 0]

/-- C7 witness: with the variable set to `"5"`, two iterations sleep 5 and 5. -/
theorem interval_read_once_default_60_witness :
    check_interval_of (some "5") = some 5 ∧
    (main_events (some "5") resp_all_ok 2).1.filter isSleepEvent =
      List.replicate 2 (Event.sleep 5) :=
  ⟨by decide,
   interval_read_once_default_60.2.2 (some "5") 5 resp_all_ok 2 (by decide) (by decide)⟩

/-- C8 counterexample: parsing is not the only unhandled-failure path —
`HEALTH_CHECK_INTERVAL=-5` parses successfully, both targets are probed
(the GET events of iteration 0 are present), and the run still ends in an
unhandled raise: the `ValueError` from `time.sleep(-5)`, after startup. -/
theorem negative_interval_second_failure_path :
    check_interval_of (some "-5") = some (-5) ∧
    (main_events (some "-5") resp_all_ok 1).2 = true ∧
    (main_events (some "-5") resp_all_ok 1).1.filter isGetEvent =
      [Event.httpGet "http://jopi_app:8000/health/" 10,
       Event.httpGet "http://synergas_app:8000/health/" 10] :=
  ⟨by decide, by decide, by decide⟩

/-- C8 amended: if `HEALTH_CHECK_INTERVAL` is set to an ASCII string that
`int()` rejects, the program raises during startup, before the first loop
iteration begins, and no target is ever probed.  This is not the only
unhandled-failure path: an unhandled raise occurs exactly when the
interval fails to parse (at startup) or parses to a negative integer
(`ValueError` from the first `time.sleep`, after the first iteration's
probes); with a parsed nonnegative interval the run never raises. -/
theorem interval_failure_paths :
    (∀ (s : String) (resp : Nat → String × String → HttpOutcome) (fuel : Nat),
        asciiOnly s = true → python_int s = none →
        main_events (some s) resp fuel = ([startup_log], true) ∧
        (main_events (some s) resp fuel).1.filter isGetEvent = []) ∧
    (∀ (env : Option String) (resp : Nat → String × String → HttpOutcome)
        (fuel : Nat), asciiEnv env = true →
        (main_events env resp fuel).2 = true →
        check_interval_of env = none ∨
          ∃ v, check_interval_of env = some v ∧ v < 0) ∧
    (∀ (env : Option String) (v : Int) (resp : Nat → String × String → HttpOutcome)
        (fuel : Nat), check_interval_of env = some v → 0 ≤ v →
        (main_events env resp fuel).2 = false) := by
  refine ⟨?_, ?_, ?_⟩
  · intro s resp fuel _ h
    have he := main_events_parse_failure s resp fuel h
    refine ⟨he, ?_⟩
    rw [he]
    simp [startup_log, isGetEvent, List.filter_cons]
  · intro env resp fuel _ h
    unfold main_events at h
    cases hc : check_interval_of env with
    | none => exact Or.inl rfl
    | some v =>
        rw [hc] at h
        exact Or.inr ⟨v, rfl, loop_events_raised v resp fuel 0 h⟩
  · intro env v resp fuel hc hv
    unfold main_events
    rw [hc]
    exact loop_events_not_raised v resp hv fuel 0

/-- C8 witness: `"abc"` is ASCII and `int("abc")` raises; the run with that
value is the startup log alone, flagged as raised. -/
theorem interval_failure_paths_witness :
    asciiOnly "abc" = true ∧ python_int "abc" = none ∧
    main_events (some "abc") resp_all_ok 3 = ([startup_log], true) :=
  ⟨by decide, by decide,
   (interval_failure_paths.1 "abc" resp_all_ok 3 (by decide) (by decide)).1⟩

/-- C9: iterations are deterministic and memoryless in the target
responses: two environments agreeing on every configured target yield
identical iteration event streams, and two iterations of the same run
whose response assignments coincide emit identical events regardless of
their position in the run. -/
theorem iterations_deterministic :
    (∀ (targets : List (String × String)) (r r' : String × String → HttpOutcome),
        (∀ t ∈ targets, r t = r' t) →
        iteration_events targets r = iteration_events targets r') ∧
    (∀ (interval : Int) (resp : Nat → String × String → HttpOutcome) (i j : Nat),
        resp i = resp j →
        (loop_step interval resp ⟨i, .probing⟩).2 =
          (loop_step interval resp ⟨j, .probing⟩).2) :=
  ⟨iteration_events_congr, fun interval resp i j h => by simp [loop_step, h]⟩

/-- C9 witness: under a constant environment, iterations 0 and 1 emit
identical events. -/
theorem iterations_deterministic_witness :
    (loop_step 60 resp_all_ok ⟨0, Phase.probing⟩).2 =
      (loop_step 60 resp_all_ok ⟨1, Phase.probing⟩).2 :=
  iterations_deterministic.2 60 resp_all_ok 0 1 rfl

/-- C10: `check_health` collapses unhealthy responses and transport faults
into the single boolean `False`, returning `True` exactly for status 200;
consequently the loop's tally cannot distinguish a non-200 response from a
fault — environments agreeing on which targets return 200 yield the same
tally. -/
theorem result_collapses_to_bool :
    (∀ (name url : String) (s : Nat), s ≠ 200 →
        (check_health name url (.response s)).1 = false) ∧
    (∀ name url m : String, (check_health name url (.fault m)).1 = false) ∧
    (∀ (name url : String) (o : HttpOutcome),
        ((check_health name url o).1 = true ↔ o = .response 200)) ∧
    (∀ (targets : List (String × String)) (r r' : String × String → HttpOutcome),
        (∀ t ∈ targets, (r t = .response 200 ↔ r' t = .response 200)) →
        (probe_fold r targets).1 = (probe_fold r' targets).1) := by
  refine ⟨?_, ?_, check_health_true_iff, probe_tally_congr⟩
  · intro name url s h
    rw [check_health_non200 name url s h]
  · intro name url m
    rw [check_health_fault]

/-- C10 witness: at status 503 and at a timeout fault the boolean results
coincide (both `False`). -/
theorem result_collapses_to_bool_witness :
    (503 : Nat) ≠ 200 ∧
    (check_health "Jopi" "http://jopi_app:8000/health/" (.response 503)).1 = false ∧
    (check_health "Jopi" "http://jopi_app:8000/health/" (.fault "timed out")).1 = false :=
  ⟨by decide,
   result_collapses_to_bool.1 "Jopi" "http://jopi_app:8000/health/" 503 (by decide),
   result_collapses_to_bool.2.1 "Jopi" "http://jopi_app:8000/health/" "timed out"⟩

end HealthWatcher
